import Mathlib

/-!
Verification development for the lyrics engine of
`DynamicMusicLivelyWallpaper` (files `src/lyrics.js`, `src/trackListener.js`,
`src/main.js`).

The JavaScript source is shallowly embedded:

* strings are `List Char`;
* JS numbers arising from timestamp arithmetic
  (`parseInt(m)*60 + parseInt(s) + parseInt(f)/100`) are `ℚ`;
* `null`/`undefined` results are `Option`;
* regular-expression operations used by the code
  (`/^\[(\d{2}):(\d{2})\.(\d{2,3})\]/`, `/<(\d{2}):(\d{2})\.(\d{2,3})>/`,
  `text.replace(/<[^>]+>/g, "")`, `text.split(/(<[^>]+>)/)`)
  are implemented as left-to-right scans on `List Char`, reproducing the
  regex engine's behaviour: a `<` opens a tag candidate that is resolved by
  the next `>` (a match needs at least one body character), and the greedy
  two-or-three-digit fraction accepts a third digit only when the closing
  bracket follows it;
* `Array.prototype.sort` with comparator `(a, b) => a.startTime - b.startTime`
  is a stable ascending sort, embedded as `List.insertionSort` on `≤`
  (insertion sort is stable, like the JS engine's sort);
* network interaction inside the provider adapters is an oracle parameter:
  each `fetch`/`response.json()`/`JSON.parse` sequence of one transport path
  is summarised by a `NetResp` value (HTTP failure, thrown error/timeout, or
  a successfully decoded payload), and each adapter additionally reports how
  many network requests it issued.
-/

/-- JS truthiness of an optional string field (`undefined`, `null` and `""`
are falsy; any non-empty string is truthy). -/
def jsTruthy : Option (List Char) → Bool
  | none => false
  | some s => !s.isEmpty

/-- `String.prototype.trim()` (lyrics.js line 539: `.trim()` after removing
the leading tag; also the `part.trim()` truthiness test at line 557). -/
def trimChars (l : List Char) : List Char :=
  ((l.dropWhile Char.isWhitespace).reverse.dropWhile Char.isWhitespace).reverse

/-- `lrcContent.split("\n")` (lyrics.js line 527). -/
def splitLinesJs (s : List Char) : List (List Char) :=
  s.foldr
    (fun c acc =>
      match acc with
      | [] => [[c]]
      | a :: as => if c = '\n' then [] :: a :: as else (c :: a) :: as)
    [[]]

/-- Numeric value of `parseInt` on a two-character digit string. -/
def twoDigits (a b : Char) : Nat :=
  (a.toNat - 48) * 10 + (b.toNat - 48)

/-- Numeric value of `parseInt` on a three-character digit string. -/
def threeDigits (a b c : Char) : Nat :=
  (a.toNat - 48) * 100 + (b.toNat - 48) * 10 + (c.toNat - 48)

/-- Scan implementing `text.replace(/<[^>]+>/g, "")` (lyrics.js lines 542
and 952).  The first argument is the scanner state: `none` while outside any
tag candidate, `some buf` after an opening `<`, where `buf` holds the
(reversed) body characters read so far.  A `>` closing a non-empty body
completes a match and the whole `<body>` is dropped; `<>` (empty body) is
not a match, so both characters stay; an unclosed `<` and its tail are
literal text. -/
def stripTagsGo : Option (List Char) → List Char → List Char
  | none, [] => []
  | some buf, [] => '<' :: buf.reverse
  | none, c :: cs =>
    if c = '<' then stripTagsGo (some []) cs else c :: stripTagsGo none cs
  | some buf, c :: cs =>
    if c = '>' then
      if buf.isEmpty then '<' :: '>' :: stripTagsGo none cs
      else stripTagsGo none cs
    else stripTagsGo (some (c :: buf)) cs

def stripTags (l : List Char) : List Char :=
  stripTagsGo none l

/-- Decides whether a character list contains a match of `<[^>]+>` (the
pattern removed by `stripTags`).  The state is `none` outside a candidate
and `some nb` inside one, `nb` recording whether the body is non-empty. -/
def hasTagGo : Option Bool → List Char → Bool
  | _, [] => false
  | none, c :: cs => if c = '<' then hasTagGo (some false) cs else hasTagGo none cs
  | some nb, c :: cs =>
    if c = '>' then
      if nb then true else hasTagGo none cs
    else hasTagGo (some true) cs

def hasTag (l : List Char) : Bool :=
  hasTagGo none l

/-- Scan implementing `text.split(/(<[^>]+>)/).filter(Boolean)` (lyrics.js
line 547): the text is cut at every `<[^>]+>` match, the matched delimiters
are kept as parts, and empty parts are dropped.  `acc` holds the reversed
characters of the gap being accumulated; the second argument is the tag
candidate state as in `stripTagsGo`. -/
def splitTagGo : List Char → Option (List Char) → List Char → List (List Char)
  | acc, none, [] => if acc.isEmpty then [] else [acc.reverse]
  | acc, some buf, [] => [acc.reverse ++ '<' :: buf.reverse]
  | acc, none, c :: cs =>
    if c = '<' then splitTagGo acc (some []) cs else splitTagGo (c :: acc) none cs
  | acc, some buf, c :: cs =>
    if c = '>' then
      if buf.isEmpty then splitTagGo ('>' :: '<' :: acc) none cs
      else
        (if acc.isEmpty then [] else [acc.reverse]) ++
          ('<' :: buf.reverse ++ ['>']) :: splitTagGo [] none cs
    else splitTagGo acc (some (c :: buf)) cs

def splitTagParts (l : List Char) : List (List Char) :=
  splitTagGo [] none l

/-- Matches the anchored line-timestamp regex
`/^\[(\d{2}):(\d{2})\.(\d{2,3})\]/` (lyrics.js line 530) against the start of
a line.  On success it returns the `parseInt` values of the three capture
groups (the fraction keeps its literal two- or three-digit value, exactly as
`parseInt(match[3])` does) together with the characters after the tag
(`line.replace(lineTimeRegex, "")`, line 539).  The greedy `\d{2,3}` accepts
a third digit only when it is immediately followed by `]`, which is the
regex engine's single backtracking step. -/
def matchLineTag : List Char → Option (Nat × Nat × Nat × List Char)
  | '[' :: a :: b :: ':' :: c :: d :: '.' :: e :: f :: rest =>
    if a.isDigit && b.isDigit && c.isDigit && d.isDigit && e.isDigit && f.isDigit then
      match rest with
      | ']' :: rest2 => some (twoDigits a b, twoDigits c d, twoDigits e f, rest2)
      | g :: ']' :: rest2 =>
        if g.isDigit then some (twoDigits a b, twoDigits c d, threeDigits e f g, rest2)
        else none
      | _ => none
    else none
  | _ => none

/-- Matches `/<(\d{2}):(\d{2})\.(\d{2,3})>/` at the head of a character
list (used by `part.match(...)` at lyrics.js line 551 and, through
`searchWordTag`, by `wordTimeRegex.test(text)` at line 545). -/
def matchWordTag : List Char → Option (Nat × Nat × Nat)
  | '<' :: a :: b :: ':' :: c :: d :: '.' :: e :: f :: rest =>
    if a.isDigit && b.isDigit && c.isDigit && d.isDigit && e.isDigit && f.isDigit then
      match rest with
      | '>' :: _ => some (twoDigits a b, twoDigits c d, twoDigits e f)
      | g :: '>' :: _ =>
        if g.isDigit then some (twoDigits a b, twoDigits c d, threeDigits e f g)
        else none
      | _ => none
    else none
  | _ => none

/-- Unanchored search for the word-timestamp pattern: the regex engine tries
every start position from the left and reports the first match. -/
def searchWordTag : List Char → Option (Nat × Nat × Nat)
  | [] => none
  | c :: cs =>
    match matchWordTag (c :: cs) with
    | some r => some r
    | none => searchWordTag cs

/-- One `{text, time}` entry of a segment's `words` array
(lyrics.js lines 558-561). -/
structure LyricWord where
  text : List Char
  time : ℚ
deriving DecidableEq, Repr

/-- One parsed lyric segment, with exactly the fields the source constructs
(lyrics.js lines 566-570): `startTime`, the tag-free `text`, and `words`
(`null` unless at least one timed word was collected).  The object literal
pushed by the code has no `endTime`, `duration` or `isGap` property. -/
structure LyricLine where
  startTime : ℚ
  text : List Char
  words : Option (List LyricWord)
deriving DecidableEq, Repr

/-- Timestamp value `parseInt(m)*60 + parseInt(s) + parseInt(f)/100`: the
code divides the fraction's `parseInt` value by 100 in the line branch
(lyrics.js line 538) and in the word branch (line 556) alike, regardless of
whether the fraction had two or three digits.  The value is built with
`mkRat` so that it evaluates inside the kernel; `tagTimeQ_eq` proves it
equal to the source expression written literally. -/
def tagTimeQ (m s f : Nat) : ℚ :=
  mkRat (m * 6000 + s * 100 + f) 100

/-- `tagTimeQ` is exactly the source's arithmetic
`parseInt(m)*60 + parseInt(s) + parseInt(f)/100`. -/
theorem tagTimeQ_eq (m s f : Nat) :
    tagTimeQ m s f = (m : ℚ) * 60 + (s : ℚ) + (f : ℚ) / 100 := by
  unfold tagTimeQ
  rw [Rat.mkRat_eq_div]
  push_cast
  ring

/-- The `parts.forEach` loop of lyrics.js lines 550-563: a part containing a
word-timestamp match updates `currentTime`; any other part whose trim is
non-empty is pushed as a word (with its untrimmed text) at the current
time. -/
def wordsFold (t : ℚ) : List (List Char) → List LyricWord
  | [] => []
  | p :: ps =>
    match searchWordTag p with
    | some (m, s, f) => wordsFold (tagTimeQ m s f) ps
    | none =>
      if (trimChars p).isEmpty then wordsFold t ps
      else ⟨p, t⟩ :: wordsFold t ps

/-- Processing of a single input line (lyrics.js lines 533-571): lines
without a leading timestamp tag are dropped (`continue`); otherwise the
segment's `startTime` comes from the tag, `text` is the tag-free remainder,
and `words` is populated only when the remainder contains embedded word
tags. -/
def parseLine (line : List Char) : Option LyricLine :=
  match matchLineTag line with
  | none => none
  | some (mm, ss, frac, rest) =>
    let startTime := tagTimeQ mm ss frac
    let text := trimChars rest
    let cleanLineText := stripTags text
    let words :=
      if (searchWordTag text).isSome then wordsFold startTime (splitTagParts text)
      else []
    some ⟨startTime, cleanLineText, if words.isEmpty then none else some words⟩

/-- The comparator `(a, b) => a.startTime - b.startTime` of lyrics.js
line 573, as the ordering relation it induces. -/
def lineLE (a b : LyricLine) : Prop :=
  a.startTime ≤ b.startTime

instance : DecidableRel lineLE := fun a b =>
  inferInstanceAs (Decidable (a.startTime ≤ b.startTime))

instance : IsTotal LyricLine lineLE := ⟨fun a b => le_total a.startTime b.startTime⟩

instance : IsTrans LyricLine lineLE := ⟨fun _ _ _ h1 h2 => le_trans h1 h2⟩

/-- `parseEnhancedLRC` (lyrics.js lines 524-574): split the input on
newlines, parse each line, and return the collected segments sorted
ascending by `startTime` (the comparator at line 573 together with the
stable sort of `Array.prototype.sort`).  A falsy input (the empty string)
yields `[]` (line 525). -/
def parseEnhancedLRC (lrcContent : List Char) : List LyricLine :=
  if lrcContent.isEmpty then []
  else List.insertionSort lineLE ((splitLinesJs lrcContent).filterMap parseLine)

/-- Outcome of one transport path of an adapter, summarising its
`fetch`/`response.json()`/`JSON.parse` sequence: `httpFail` is a response
with `response.ok` false; `thrown` is a rejected `fetch` (network error or
the 5s/10s `AbortController` timeout) or an exception while decoding the
body; `ok` carries the successfully decoded payload. -/
inductive NetResp (α : Type) where
  | httpFail
  | thrown
  | ok (v : α)

/-- A failure-only `NetResp`, selected by a boolean (used to quantify over
both failure modes without a propositional hypothesis). -/
def failResp (b : Bool) : NetResp α :=
  if b then NetResp.httpFail else NetResp.thrown

/-- The object returned by a successful provider adapter
(e.g. lyrics.js lines 677-682): `lyrics`, `source`, `synced`, `type`, and
for Genius additionally `url`. -/
structure AdapterResult where
  lyrics : List Char
  source : String
  synced : Bool
  type : String
  url : Option (List Char)
deriving DecidableEq, Repr

/-- A track object of the Better Lyrics search payload
(`data.tracks[i]`, lyrics.js lines 674-675). -/
structure BLTrack where
  syncedLyrics : Option (List Char)

/-- The decoded Better Lyrics payload (`data.tracks` may be missing). -/
structure BLData where
  tracks : Option (List BLTrack)

/-- Payload handling shared by the direct and the proxy path of the Better
Lyrics adapter (lyrics.js lines 672-682 and 697-707): missing or empty
`tracks` gives `null`; a falsy `syncedLyrics` on the first track gives
`null`; otherwise the adapter result is built. -/
def blCompute (data : BLData) : Option AdapterResult :=
  match data.tracks with
  | none => none
  | some [] => none
  | some (t :: _) =>
    match t.syncedLyrics with
    | none => none
    | some l =>
      if l.isEmpty then none
      else some ⟨l, "Better Lyrics", true, "syllable", none⟩

/-- `fetchFromBetterLyrics` (lyrics.js lines 655-712).  The direct call is
always issued; any failure of the direct path (a non-ok response is turned
into `throw new Error("Failed")` at line 669, a rejected fetch or decode
error) lands in the inner `catch` and triggers the proxy call.  On the
proxy path a non-ok response returns `null` (line 691) and a thrown error
reaches the outer `catch`, which also returns `null` (lines 709-711).  The
second component counts the network requests issued. -/
def fetchFromBetterLyrics (direct proxy : NetResp BLData) :
    Option AdapterResult × Nat :=
  match direct with
  | NetResp.ok data => (blCompute data, 1)
  | _ =>
    match proxy with
    | NetResp.ok data => (blCompute data, 2)
    | _ => (none, 2)

/-- `data.message.body.lyrics` payload of Musixmatch
(lyrics.js lines 736-745). -/
structure MMLyrics where
  lyrics_body : List Char

structure MMBody where
  lyrics : Option MMLyrics

structure MMMessage where
  status : Int
  body : Option MMBody

structure MMData where
  message : Option MMMessage

/-- Payload handling of the Musixmatch adapter (lyrics.js lines 736-747):
a missing `message` makes `data.message.status` throw (recovered by the
adapter's `catch`, hence `none` here); with status 200, a missing `body`
makes `data.message.body.lyrics` throw (same recovery); a missing `lyrics`
or a status other than 200 returns `null` without throwing. -/
def mmCompute (data : MMData) : Option AdapterResult :=
  match data.message with
  | none => none
  | some msg =>
    if msg.status = 200 then
      match msg.body with
      | none => none
      | some b =>
        match b.lyrics with
        | none => none
        | some l => some ⟨l.lyrics_body, "Musixmatch", false, "word", none⟩
    else none

/-- `fetchFromMusixmatch` (lyrics.js lines 717-751): a falsy `apiKey`
returns `null` before any network call (line 722); otherwise one request is
issued; a non-ok response returns `null` (line 734) and thrown errors are
caught (lines 748-750). -/
def fetchFromMusixmatch (apiKey : Option (List Char)) (resp : NetResp MMData) :
    Option AdapterResult × Nat :=
  if !jsTruthy apiKey then (none, 0)
  else
    match resp with
    | NetResp.ok data => (mmCompute data, 1)
    | _ => (none, 1)

/-- One search result of LRClib (`results[i]`, lyrics.js lines 796-798). -/
structure LRTrack where
  syncedLyrics : Option (List Char)
  plainLyrics : Option (List Char)

/-- Result-array handling of the LRClib adapter (lyrics.js lines 794-806
and 812-823): an empty array means `continue`; the chosen track is the
first with a truthy `syncedLyrics`, else `results[0]`; if both lyric
fields are falsy the query is skipped, otherwise the adapter result is
built from `syncedLyrics || plainLyrics`. -/
def lrCompute (results : List LRTrack) : Option AdapterResult :=
  match results with
  | [] => none
  | first :: _ =>
    let track := (results.find? (fun t => jsTruthy t.syncedLyrics)).getD first
    if !jsTruthy track.syncedLyrics && !jsTruthy track.plainLyrics then none
    else
      some ⟨(if jsTruthy track.syncedLyrics then track.syncedLyrics
             else track.plainLyrics).getD [],
            "LRClib", jsTruthy track.syncedLyrics, "line", none⟩

/-- One query iteration of the LRClib adapter (lyrics.js lines 773-827):
the direct call is issued; a non-ok response triggers the proxy call
(line 782) whose own failures make the iteration `continue`; a thrown
error on either path is caught by the per-iteration `catch` (line 824)
and also leads to `continue` (`none` here). -/
def lrQuery (direct proxy : NetResp (List LRTrack)) :
    Option AdapterResult × Nat :=
  match direct with
  | NetResp.ok results => (lrCompute results, 1)
  | NetResp.httpFail =>
    match proxy with
    | NetResp.ok results => (lrCompute results, 2)
    | _ => (none, 2)
  | NetResp.thrown => (none, 1)

/-- `fetchFromLRClib` (lyrics.js lines 756-833): the two query formats are
tried in order; the first iteration that produces a result returns it, and
exhaustion returns `null` (line 829). -/
def fetchFromLRClib (d1 p1 d2 p2 : NetResp (List LRTrack)) :
    Option AdapterResult × Nat :=
  match lrQuery d1 p1 with
  | (some r, n) => (some r, n)
  | (none, n) =>
    match lrQuery d2 p2 with
    | (res, m) => (res, n + m)

/-- One Genius search hit (`hits[i].result`, lyrics.js lines 866-874). -/
structure GenHit where
  title : List Char
  primaryArtist : List Char
  url : List Char

structure GenResponse where
  hits : Option (List GenHit)

structure GenData where
  response : Option GenResponse

/-- The display text the Genius adapter builds
(lyrics.js line 869): `"<title>" by <artist>\n\nView full lyrics: <url>`. -/
def genLyricsText (hit : GenHit) : List Char :=
  '"' :: hit.title ++ '"' :: " by ".data ++ hit.primaryArtist ++
    "\n\nView full lyrics: ".data ++ hit.url

/-- Payload handling of the Genius adapter (lyrics.js lines 861-874): a
missing `response` makes `data.response.hits` throw (recovered by the
adapter's `catch`); missing or empty `hits` returns `null`; otherwise a
result is built from the first hit. -/
def genCompute (data : GenData) : Option AdapterResult :=
  match data.response with
  | none => none
  | some resp =>
    match resp.hits with
    | none => none
    | some [] => none
    | some (hit :: _) =>
      some ⟨genLyricsText hit, "Genius", false, "line", some hit.url⟩

/-- `fetchFromGenius` (lyrics.js lines 838-878): a falsy `accessToken`
returns `null` before any network call (line 843); otherwise one request
is issued; a non-ok response returns `null` (line 859) and thrown errors
are caught (lines 875-877). -/
def fetchFromGenius (accessToken : Option (List Char)) (resp : NetResp GenData) :
    Option AdapterResult × Nat :=
  if !jsTruthy accessToken then (none, 0)
  else
    match resp with
    | NetResp.ok data => (genCompute data, 1)
    | _ => (none, 1)

/-- The object returned by a successful `fetchLyrics` (lyrics.js
lines 890-894): the spread of the adapter result plus `parsedLyrics` and
`displayType` (a copy of the adapter's `type`). -/
structure FetchResult where
  lyrics : List Char
  source : String
  synced : Bool
  type : String
  url : Option (List Char)
  parsedLyrics : List LyricLine
  displayType : String
deriving DecidableEq, Repr

/-- One priority block of `fetchLyrics` (for example lyrics.js
lines 886-896): a block accepts its adapter's outcome when the result is
non-null, its `lyrics` string is truthy, and `parseEnhancedLRC` on it is
non-empty (`parsed && parsed.length > 0`; a JS array is always truthy, so
only the length check matters). -/
def tryStep (r : Option AdapterResult) : Option FetchResult :=
  match r with
  | none => none
  | some res =>
    if res.lyrics.isEmpty then none
    else
      let parsed := parseEnhancedLRC res.lyrics
      if parsed.isEmpty then none
      else some ⟨res.lyrics, res.source, res.synced, res.type, res.url, parsed, res.type⟩

/-- The priority chain of `fetchLyrics` (lyrics.js lines 883-942) over the
four adapter outcomes, in source order: Better Lyrics, Musixmatch, LRClib,
Genius.  An accepted block returns immediately, so a later adapter is
invoked only when every earlier block falls through.  The second component
records which adapter positions were invoked. -/
def fetchLyricsTrace (a1 a2 a3 a4 : Option AdapterResult) :
    Option FetchResult × List Nat :=
  match tryStep a1 with
  | some r => (some r, [1])
  | none =>
    match tryStep a2 with
    | some r => (some r, [1, 2])
    | none =>
      match tryStep a3 with
      | some r => (some r, [1, 2, 3])
      | none =>
        match tryStep a4 with
        | some r => (some r, [1, 2, 3, 4])
        | none => (none, [1, 2, 3, 4])

/-- The network oracles consumed by one full run of `fetchLyrics`: one
direct and one proxy path for Better Lyrics, one path for Musixmatch, a
direct and a proxy path for each of the two LRClib query formats, and one
path for Genius. -/
structure NetWorld where
  blDirect : NetResp BLData
  blProxy : NetResp BLData
  mm : NetResp MMData
  lr1d : NetResp (List LRTrack)
  lr1p : NetResp (List LRTrack)
  lr2d : NetResp (List LRTrack)
  lr2p : NetResp (List LRTrack)
  gen : NetResp GenData

/-- `fetchLyrics(artist, title, apiKeys)` (lyrics.js lines 883-942)
composed from the four adapter embeddings, with the invocation trace of
`fetchLyricsTrace`.  The whole body sits in a `try` whose `catch` returns
`null` (lines 939-941); since every adapter already catches its own
failures and the parser is total, the body never throws. -/
def fetchLyricsRun (musixmatchKey geniusKey : Option (List Char)) (w : NetWorld) :
    Option FetchResult × List Nat :=
  fetchLyricsTrace
    (fetchFromBetterLyrics w.blDirect w.blProxy).1
    (fetchFromMusixmatch musixmatchKey w.mm).1
    (fetchFromLRClib w.lr1d w.lr1p w.lr2d w.lr2p).1
    (fetchFromGenius geniusKey w.gen).1

/-- The lyrics-related slice of the shared application state
(`state` in main.js: `currentLyrics`, `lyricsSource`, `lyricsType`,
`currentPosition`). -/
structure SyncState where
  currentLyrics : Option (List LyricLine)
  lyricsSource : String
  lyricsType : String
  currentPosition : ℚ
deriving DecidableEq, Repr

/-- The initial state installed by main.js (`currentLyrics: null`,
`lyricsSource: ""`, default type, position 0). -/
def initialSyncState : SyncState :=
  ⟨none, "", "line", 0⟩

/-- The atomic state mutations an invocation of `livelyCurrentTrack`
performs on the lyrics slice, in order (trackListener.js): `reset` is the
synchronous block at lines 56-59 (`currentLyrics = null`,
`lyricsSource = "Loading..."`, `lyricsType = "line"`,
`currentPosition = 0`), executed before the handler suspends on
`await fetchLyrics(...)`; `commit r` is the continuation at lines 73-84,
which installs `r`'s timeline, source and display type when
`result && result.parsedLyrics && result.parsedLyrics.length > 0`
(`parsedLyrics` is always present on a non-null result, so the null check
and the length check decide), and touches only the DOM otherwise. -/
inductive TrackStep where
  | reset
  | commit (r : Option FetchResult)

/-- Effect of one `TrackStep` on the state.  The `commit` of a result with
a non-empty timeline replaces `currentLyrics` wholesale with the fetched
`parsedLyrics`; there is no guard comparing the result against the track
that is current at commit time. -/
def applyStep (s : SyncState) : TrackStep → SyncState
  | TrackStep.reset => ⟨none, "Loading...", "line", 0⟩
  | TrackStep.commit r =>
    match r with
    | some res =>
      if res.parsedLyrics.isEmpty then s
      else ⟨some res.parsedLyrics, res.source, res.displayType, s.currentPosition⟩
    | none => s

/-- A run of the single-threaded event loop: `livelyCurrentTrack` is an
`async` function, so its `reset` and `commit` blocks of different
invocations interleave at the `await` in any order consistent with each
invocation performing `reset` before `commit`; the schedule lists the
atomic blocks in the order the event loop executes them. -/
def runSchedule (s : SyncState) (steps : List TrackStep) : SyncState :=
  steps.foldl applyStep s

/-- Index of the last timeline entry whose `startTime` is at most `t`:
`[...state.currentLyrics].reverse().find(l => currentTime >= l.startTime)`
(lyrics.js lines 584-586) returns the last such segment object, and
`state.currentLyrics.indexOf(activeLine)` (line 602) recovers its
position. -/
def lastIdxLE (t : ℚ) : List LyricLine → Option Nat
  | [] => none
  | a :: as =>
    match lastIdxLE t as with
    | some i => some (i + 1)
    | none => if a.startTime ≤ t then some 0 else none

/-- Active-segment selection of `updateLyricsSync` (lyrics.js
lines 579-593): the reversed `find` picks the last segment that has
started; if none has (position before the first segment) and the timeline
is non-empty, the first segment is used
(`if (!activeLine && state.currentLyrics.length > 0) activeLine =
state.currentLyrics[0]`); an empty timeline selects nothing (the handler
returns). -/
def activeLineIndex (lyrics : List LyricLine) (t : ℚ) : Option Nat :=
  match lastIdxLE t lyrics with
  | some i => some i
  | none => if lyrics.isEmpty then none else some 0

/-- Claim C1 (settled against the code): `parseEnhancedLRC` computes
`startTime = MM*60 + SS + fraction/100` for two-digit fractions as the
claim states, but it applies the same `/100` to three-digit fractions
(lyrics.js lines 537-538 and 553-556 divide `parseInt(match[3])` by 100
while the regexes accept `\d{2,3}`), instead of the claimed `/1000`:
`[00:01.500]` yields startTime 6, not `0*60 + 1 + 500/1000 = 1.5`, and the
embedded word tag `<00:01.500>` likewise yields word time 6. -/
theorem parseEnhancedLRC_fraction_div100 :
    parseEnhancedLRC "[01:02.05]ok".data = [⟨mkRat 6205 100, "ok".data, none⟩]
      ∧ mkRat 6205 100 = (1 : ℚ) * 60 + 2 + 5 / 100
      ∧ parseEnhancedLRC "[00:01.500]x".data = [⟨6, "x".data, none⟩]
      ∧ (6 : ℚ) ≠ (0 : ℚ) * 60 + 1 + 500 / 1000
      ∧ parseEnhancedLRC "[00:00.00]a <00:01.500>b".data =
          [⟨0, "a b".data, some [⟨"a ".data, 0⟩, ⟨"b".data, 6⟩]⟩] := by
  refine ⟨by decide, by rw [Rat.mkRat_eq_div]; norm_num, by decide, by norm_num, by decide⟩

/-- Claim C2 (settled against the code): three timestamped lines with no
sub-tags parse to exactly three segments with `words` absent on each, but
no `endTime`/`duration` chaining exists — the segments carry only
`startTime`, `text` and `words` (the object literal at lyrics.js
lines 566-570), and no fallback duration is synthesized for the last
segment, although the state comment in main.js documents
`Array of (text, startTime, duration, endTime, isGap)`. -/
theorem parseEnhancedLRC_three_lines :
    parseEnhancedLRC "[00:00.00]a\n[00:05.00]b\n[00:10.00]c".data =
      [⟨0, "a".data, none⟩, ⟨5, "b".data, none⟩, ⟨10, "c".data, none⟩] := by
  decide

/-- Claim C3 (settled against the code): an input whose first timestamp is
`[00:02.00]` parses to a single segment starting at 2.0; no synthetic
leading gap segment spanning `[0, 2.0)` is inserted — `parseEnhancedLRC`
(lyrics.js lines 524-574) has no gap-filling pass and no `isGap` flag. -/
theorem parseEnhancedLRC_no_gap_segment :
    parseEnhancedLRC "[00:02.00]hello".data = [⟨2, "hello".data, none⟩] := by
  decide

/-- The timeline of the Sync Cursor boundary example: two segments whose
implicit intervals are `[0,5)` and `[5,10)` (segments carry only
`startTime`, so the intervals are delimited by consecutive start times). -/
def twoSegTimeline : List LyricLine :=
  [⟨0, "a".data, none⟩, ⟨5, "b".data, none⟩]

/-- Claim C7: on the timeline with segments `[0,5)`,`[5,10)` the active
segment index at position 7.5 is 1; at position -1 the cursor falls back to
index 0 and at position 12 to the last index (1); and for every timeline
and position the selection (lyrics.js lines 579-593) is a total function
that yields a segment exactly when the timeline is non-empty. -/
theorem activeLineIndex_boundaries :
    activeLineIndex twoSegTimeline (mkRat 15 2) = some 1
      ∧ activeLineIndex twoSegTimeline (mkRat (-1) 1) = some 0
      ∧ activeLineIndex twoSegTimeline 12 = some 1
      ∧ ∀ (l : List LyricLine) (t : ℚ), (activeLineIndex l t).isSome = !l.isEmpty := by
  refine ⟨by decide, by decide, by decide, ?_⟩
  intro l t
  match l with
  | [] => simp [activeLineIndex, lastIdxLE]
  | a :: as =>
    simp only [activeLineIndex]
    match lastIdxLE t (a :: as) with
    | some i => simp
    | none => simp

/-- Any result accepted by a priority block carries the non-empty parse of
the adapter's payload. -/
theorem tryStep_parsed (a : Option AdapterResult) (r : FetchResult)
    (h : tryStep a = some r) :
    r.parsedLyrics = parseEnhancedLRC r.lyrics ∧ r.parsedLyrics.isEmpty = false := by
  match a with
  | none => simp [tryStep] at h
  | some res =>
    by_cases h1 : res.lyrics.isEmpty
    · simp [tryStep, h1] at h
    · by_cases h2 : (parseEnhancedLRC res.lyrics).isEmpty
      · simp [tryStep, h1, h2] at h
      · simp [tryStep, h1, h2] at h
        subst h
        simpa using h2

/-- Claim C5: the orchestrator tries the four adapters in the fixed source
order; when the first two yield nothing and the third yields a payload
whose parse is non-empty, the result is built from the third adapter
(source name included) and position 4 is never invoked; and the overall
result is absent exactly when every block falls through. -/
theorem fetchLyricsTrace_priority :
    (∀ (p : AdapterResult) (a4 : Option AdapterResult),
        p.lyrics.isEmpty = false →
        (parseEnhancedLRC p.lyrics).isEmpty = false →
          (fetchLyricsTrace none none (some p) a4).1 =
              some ⟨p.lyrics, p.source, p.synced, p.type, p.url,
                parseEnhancedLRC p.lyrics, p.type⟩
            ∧ (fetchLyricsTrace none none (some p) a4).2 = [1, 2, 3]
            ∧ 4 ∉ (fetchLyricsTrace none none (some p) a4).2)
      ∧ ∀ a1 a2 a3 a4 : Option AdapterResult,
          ((fetchLyricsTrace a1 a2 a3 a4).1 = none ↔
            tryStep a1 = none ∧ tryStep a2 = none ∧ tryStep a3 = none ∧
              tryStep a4 = none) := by
  constructor
  · intro p a4 h1 h2
    refine ⟨?_, ?_, ?_⟩ <;> simp [fetchLyricsTrace, tryStep, h1, h2]
  · intro a1 a2 a3 a4
    simp only [fetchLyricsTrace]
    match h1 : tryStep a1 with
    | some r => simp [h1]
    | none =>
      match h2 : tryStep a2 with
      | some r => simp [h2]
      | none =>
        match h3 : tryStep a3 with
        | some r => simp [h3]
        | none =>
          match h4 : tryStep a4 with
          | some r => simp [h4]
          | none => simp [h4]

/-- Witness for the hypotheses of `fetchLyricsTrace_priority`: a concrete
third-adapter payload that parses non-empty. -/
theorem fetchLyricsTrace_priority_witness :
    (fetchLyricsTrace none none
        (some ⟨"[00:00.00]hi".data, "LRClib", true, "line", none⟩) none).1 =
        some ⟨"[00:00.00]hi".data, "LRClib", true, "line", none,
          parseEnhancedLRC "[00:00.00]hi".data, "line"⟩
      ∧ (fetchLyricsTrace none none
          (some ⟨"[00:00.00]hi".data, "LRClib", true, "line", none⟩) none).2 = [1, 2, 3] := by
  have h := (fetchLyricsTrace_priority.1
    ⟨"[00:00.00]hi".data, "LRClib", true, "line", none⟩ none (by decide) (by decide))
  exact ⟨h.1, h.2.1⟩

/-- Claim C6: every adapter converts both of its internal failure modes
(non-ok HTTP responses and thrown errors: network failures, the abort
timeouts, malformed bodies) to `null`, and a full `fetchLyrics` run — whose
adapters' faults are all caught before its own `catch` at lyrics.js
lines 939-941 — observably yields either a result carrying a non-empty
parsed timeline together with its source metadata, or `null`; no exception
escapes. -/
theorem fetchLyrics_total_outcomes :
    (∀ b1 b2 : Bool, fetchFromBetterLyrics (failResp b1) (failResp b2) = (none, 2))
      ∧ (∀ (k : Option (List Char)) (b : Bool),
          fetchFromMusixmatch k (failResp b) = (none, if jsTruthy k then 1 else 0))
      ∧ (∀ b1 b2 b3 b4 : Bool,
          (fetchFromLRClib (failResp b1) (failResp b2) (failResp b3) (failResp b4)).1 = none)
      ∧ (∀ (k : Option (List Char)) (b : Bool),
          (fetchFromGenius k (failResp b)).1 = none)
      ∧ ∀ (mk gk : Option (List Char)) (w : NetWorld),
          (fetchLyricsRun mk gk w).1 = none
            ∨ ∃ r, (fetchLyricsRun mk gk w).1 = some r ∧ r.parsedLyrics.isEmpty = false := by
  refine ⟨?_, ?_, ?_, ?_, ?_⟩
  · intro b1 b2
    cases b1 <;> cases b2 <;> rfl
  · intro k b
    by_cases hk : jsTruthy k <;> cases b <;> simp [fetchFromMusixmatch, hk, failResp]
  · intro b1 b2 b3 b4
    cases b1 <;> cases b2 <;> cases b3 <;> cases b4 <;> rfl
  · intro k b
    by_cases hk : jsTruthy k <;> cases b <;> simp [fetchFromGenius, hk, failResp]
  · intro mk gk w
    simp only [fetchLyricsRun, fetchLyricsTrace]
    match h1 : tryStep (fetchFromBetterLyrics w.blDirect w.blProxy).1 with
    | some r => exact Or.inr ⟨r, rfl, (tryStep_parsed _ r h1).2⟩
    | none =>
      match h2 : tryStep (fetchFromMusixmatch mk w.mm).1 with
      | some r => exact Or.inr ⟨r, rfl, (tryStep_parsed _ r h2).2⟩
      | none =>
        match h3 : tryStep (fetchFromLRClib w.lr1d w.lr1p w.lr2d w.lr2p).1 with
        | some r => exact Or.inr ⟨r, rfl, (tryStep_parsed _ r h3).2⟩
        | none =>
          match h4 : tryStep (fetchFromGenius gk w.gen).1 with
          | some r => exact Or.inr ⟨r, rfl, (tryStep_parsed _ r h4).2⟩
          | none => exact Or.inl rfl

/-- Claim C9: with the credential absent, the Musixmatch and Genius
adapters return `null` having issued zero network requests (lyrics.js
lines 722 and 843), and `fetchLyrics` proceeds past them: with no
Musixmatch key the third adapter (LRClib) is consulted exactly when the
Better Lyrics block fell through. -/
theorem credential_gate_short_circuit :
    (∀ resp : NetResp MMData, fetchFromMusixmatch none resp = (none, 0))
      ∧ (∀ resp : NetResp GenData, fetchFromGenius none resp = (none, 0))
      ∧ ∀ (gk : Option (List Char)) (w : NetWorld),
          (3 ∈ (fetchLyricsRun none gk w).2 ↔
            tryStep (fetchFromBetterLyrics w.blDirect w.blProxy).1 = none) := by
  refine ⟨fun resp => rfl, fun resp => rfl, ?_⟩
  intro gk w
  simp only [fetchLyricsRun, fetchLyricsTrace]
  have hmm : fetchFromMusixmatch none w.mm = (none, 0) := rfl
  match h1 : tryStep (fetchFromBetterLyrics w.blDirect w.blProxy).1 with
  | some r => simp
  | none =>
    rw [hmm]
    match h3 : tryStep (fetchFromLRClib w.lr1d w.lr1p w.lr2d w.lr2p).1 with
    | some r => simp [tryStep]
    | none =>
      match h4 : tryStep (fetchFromGenius gk w.gen).1 with
      | some r => simp [tryStep]
      | none => simp [tryStep]

/-- A successful fetch outcome for track X used in the race scenario:
fetch A resolves with Better Lyrics data. -/
def raceResultA : FetchResult :=
  ⟨"[00:00.00]a".data, "Better Lyrics", true, "syllable", none,
    [⟨0, "a".data, none⟩], "syllable"⟩

/-- A successful fetch outcome for track Y used in the race scenario:
fetch B resolves with LRClib data. -/
def raceResultB : FetchResult :=
  ⟨"[00:00.00]b".data, "LRClib", true, "line", none,
    [⟨0, "b".data, none⟩], "line"⟩

/-- Counterexample to claim C4: `livelyCurrentTrack` (trackListener.js
lines 55-84) awaits `fetchLyrics` and commits its result without any check
that the fetch still belongs to the current track.  In the schedule where
track change A resets, track change B resets, B's fetch commits, and then
A's fetch resolves late and commits, the installed source/timeline are A's
("Better Lyrics"), not those of the most recent track change B ("LRClib"):
the stale result is committed, not discarded. -/
theorem trackChange_race_stale_commit :
    (runSchedule initialSyncState
        [TrackStep.reset, TrackStep.reset,
         TrackStep.commit (some raceResultB),
         TrackStep.commit (some raceResultA)]).lyricsSource = "Better Lyrics"
      ∧ (runSchedule initialSyncState
          [TrackStep.reset, TrackStep.reset,
           TrackStep.commit (some raceResultB),
           TrackStep.commit (some raceResultA)]).currentLyrics =
            some raceResultA.parsedLyrics
      ∧ raceResultA.source ≠ raceResultB.source := by
  decide

/-- Claim C4 as amended: there is no in-flight invalidation — whichever
fetch commits last wins.  When the fetch of the older track change A
resolves after the fetch of the newer track change B, A's (successful)
result overwrites B's installed state: the final source, timeline and
display type are A's, for every prior state and every result B. -/
theorem trackChange_last_commit_wins (s : SyncState) (rA rB : FetchResult)
    (hA : rA.parsedLyrics.isEmpty = false) :
    (runSchedule s
        [TrackStep.reset, TrackStep.reset,
         TrackStep.commit (some rB),
         TrackStep.commit (some rA)]).lyricsSource = rA.source
      ∧ (runSchedule s
          [TrackStep.reset, TrackStep.reset,
           TrackStep.commit (some rB),
           TrackStep.commit (some rA)]).currentLyrics = some rA.parsedLyrics
      ∧ (runSchedule s
          [TrackStep.reset, TrackStep.reset,
           TrackStep.commit (some rB),
           TrackStep.commit (some rA)]).lyricsType = rA.displayType := by
  simp only [runSchedule, List.foldl, applyStep]
  by_cases hB : rB.parsedLyrics.isEmpty <;> simp [hB, hA, applyStep]

/-- Witness for `trackChange_last_commit_wins` at the concrete race
results. -/
theorem trackChange_last_commit_wins_witness :
    (runSchedule initialSyncState
        [TrackStep.reset, TrackStep.reset,
         TrackStep.commit (some raceResultB),
         TrackStep.commit (some raceResultA)]).lyricsSource = raceResultA.source := by
  exact (trackChange_last_commit_wins initialSyncState raceResultA raceResultB (by decide)).1

/-- Default segment used with `List.getD` when indexing timelines. -/
def dfltLine : LyricLine :=
  ⟨0, [], none⟩

/-- The parser's output is sorted ascending by `startTime` for every
input. -/
theorem parseEnhancedLRC_sorted (s : List Char) :
    List.Pairwise (fun a b : LyricLine => a.startTime ≤ b.startTime)
      (parseEnhancedLRC s) := by
  unfold parseEnhancedLRC
  by_cases h : s.isEmpty
  · simp [h]
  · simp only [h, Bool.false_eq_true, if_false]
    exact List.sorted_insertionSort lineLE _

/-- Claim C8: for every input the timeline is sorted ascending by
`startTime`; the segments' implicit intervals (segment `i` spans
`[startTime i, startTime (i+1))`, segments carrying no `endTime` of their
own) are pairwise disjoint; and a track-change commit never mutates an
installed timeline incrementally: the commit of a successful result
replaces `currentLyrics` with the result's full `parsedLyrics`
(trackListener.js line 75), and otherwise leaves it untouched. -/
theorem timeline_sorted_disjoint_replaced :
    (∀ s : List Char,
        List.Pairwise (fun a b : LyricLine => a.startTime ≤ b.startTime)
          (parseEnhancedLRC s))
      ∧ (∀ (s : List Char) (i j : Nat) (x : ℚ), i < j →
          j + 1 < (parseEnhancedLRC s).length →
          ¬(((parseEnhancedLRC s).getD i dfltLine).startTime ≤ x
            ∧ x < ((parseEnhancedLRC s).getD (i + 1) dfltLine).startTime
            ∧ ((parseEnhancedLRC s).getD j dfltLine).startTime ≤ x
            ∧ x < ((parseEnhancedLRC s).getD (j + 1) dfltLine).startTime))
      ∧ ∀ (st : SyncState) (r : FetchResult),
          (applyStep st (TrackStep.commit (some r))).currentLyrics =
            if r.parsedLyrics.isEmpty then st.currentLyrics
            else some r.parsedLyrics := by
  refine ⟨parseEnhancedLRC_sorted, ?_, ?_⟩
  · intro s i j x hij hj1 ⟨h1, h2, h3, h4⟩
    have hlen := hj1
    have hi1 : i + 1 < (parseEnhancedLRC s).length := by omega
    have hj : j < (parseEnhancedLRC s).length := by omega
    have hle : ((parseEnhancedLRC s).getD (i + 1) dfltLine).startTime ≤
        ((parseEnhancedLRC s).getD j dfltLine).startTime := by
      rw [List.getD_eq_getElem _ _ hi1, List.getD_eq_getElem _ _ hj]
      rcases Nat.lt_or_ge (i + 1) j with hlt | hge
      · have hp := List.pairwise_iff_get.mp (parseEnhancedLRC_sorted s)
          ⟨i + 1, hi1⟩ ⟨j, hj⟩ hlt
        simpa using hp
      · have : i + 1 = j := by omega
        subst this
        exact le_refl _
    linarith
  · intro st r
    by_cases hr : r.parsedLyrics.isEmpty <;> simp [applyStep, hr]

/-- Witness for the interval-disjointness hypotheses of
`timeline_sorted_disjoint_replaced` at a concrete three-line input. -/
theorem timeline_sorted_disjoint_replaced_witness :
    ¬(((parseEnhancedLRC "[00:00.00]a\n[00:05.00]b\n[00:10.00]c".data).getD 0
          dfltLine).startTime ≤ mkRat 1 2
      ∧ mkRat 1 2 < ((parseEnhancedLRC "[00:00.00]a\n[00:05.00]b\n[00:10.00]c".data).getD 1
          dfltLine).startTime
      ∧ ((parseEnhancedLRC "[00:00.00]a\n[00:05.00]b\n[00:10.00]c".data).getD 1
          dfltLine).startTime ≤ mkRat 1 2
      ∧ mkRat 1 2 < ((parseEnhancedLRC "[00:00.00]a\n[00:05.00]b\n[00:10.00]c".data).getD 2
          dfltLine).startTime) := by
  exact timeline_sorted_disjoint_replaced.2.1
    "[00:00.00]a\n[00:05.00]b\n[00:10.00]c".data 0 1 (mkRat 1 2)
    (by decide) (by decide)

/-- A character list without `'>'` contains no tag match, from any scanner
state. -/
theorem hasTagGo_of_no_gt (m : List Char) :
    ∀ st : Option Bool, (∀ c ∈ m, c ≠ '>') → hasTagGo st m = false := by
  induction m with
  | nil => intro st _; cases st <;> rfl
  | cons c cs ih =>
    intro st h
    have hc : c ≠ '>' := h c (List.mem_cons_self c cs)
    have hcs : ∀ x ∈ cs, x ≠ '>' := fun x hx => h x (List.mem_cons_of_mem c hx)
    cases st with
    | none =>
      by_cases h1 : c = '<' <;> simp [hasTagGo, h1, ih _ hcs]
    | some nb =>
      simp [hasTagGo, hc, ih _ hcs]

/-- The tag-stripping scan leaves no tag match behind, whatever the
surviving characters looked like: from the outside state, and from any
inside state whose partial body has no `'>'`. -/
theorem stripTagsGo_no_tag (l : List Char) :
    hasTagGo none (stripTagsGo none l) = false
      ∧ ∀ buf : List Char, (∀ c ∈ buf, c ≠ '>') →
          hasTagGo none (stripTagsGo (some buf) l) = false := by
  induction l with
  | nil =>
    refine ⟨rfl, ?_⟩
    intro buf hbuf
    show hasTagGo none ('<' :: buf.reverse) = false
    have : ∀ c ∈ buf.reverse, c ≠ '>' := fun c hc => hbuf c (List.mem_reverse.mp hc)
    simp [hasTagGo, hasTagGo_of_no_gt _ _ this]
  | cons c cs ih =>
    constructor
    · by_cases h1 : c = '<'
      · subst h1
        show hasTagGo none (stripTagsGo (some []) cs) = false
        exact ih.2 [] (by intro x hx; simp at hx)
      · have : stripTagsGo none (c :: cs) = c :: stripTagsGo none cs := by
          simp [stripTagsGo, h1]
        rw [this]
        simp [hasTagGo, h1, ih.1]
    · intro buf hbuf
      by_cases h2 : c = '>'
      · subst h2
        by_cases h3 : buf.isEmpty
        · have : stripTagsGo (some buf) ('>' :: cs) =
              '<' :: '>' :: stripTagsGo none cs := by
            simp [stripTagsGo, h3]
          rw [this]
          simp [hasTagGo, ih.1]
        · have : stripTagsGo (some buf) ('>' :: cs) = stripTagsGo none cs := by
            simp [stripTagsGo, h3]
          rw [this]
          exact ih.1
      · have : stripTagsGo (some buf) (c :: cs) =
            stripTagsGo (some (c :: buf)) cs := by
          simp [stripTagsGo, h2]
        rw [this]
        refine ih.2 (c :: buf) ?_
        intro x hx
        rcases List.mem_cons.mp hx with rfl | hx'
        · exact h2
        · exact hbuf x hx'

/-- `stripTags` removes every `<[^>]+>` match and creates no new one. -/
theorem hasTag_stripTags (l : List Char) : hasTag (stripTags l) = false :=
  (stripTagsGo_no_tag l).1

/-- The `words` field is well-formed when it is `none` or a non-empty
list (the code stores `words.length > 0 ? words : null`, lyrics.js
line 569). -/
def wordsOk : Option (List LyricWord) → Bool
  | none => true
  | some ws => !ws.isEmpty

/-- Claim C10: every segment produced by `parseEnhancedLRC` has a `text`
with no remaining angle-bracket tag (every `<[^>]+>` match — in particular
every embedded timestamp tag — is stripped), and a `words` field that is
`null` or a non-empty sequence, never an empty list. -/
theorem parseEnhancedLRC_text_words_wf (s : List Char) :
    (parseEnhancedLRC s).all
      (fun seg => !hasTag seg.text && wordsOk seg.words) = true := by
  rw [List.all_eq_true]
  intro seg hseg
  unfold parseEnhancedLRC at hseg
  by_cases h : s.isEmpty
  · simp [h] at hseg
  · simp only [h, Bool.false_eq_true, if_false] at hseg
    rw [List.mem_insertionSort] at hseg
    rw [List.mem_filterMap] at hseg
    obtain ⟨ln, _, hln⟩ := hseg
    unfold parseLine at hln
    match hm : matchLineTag ln with
    | none => rw [hm] at hln; simp at hln
    | some (mm, ss, frac, rest) =>
      rw [hm] at hln
      simp only [Option.some.injEq] at hln
      subst hln
      simp only [Bool.and_eq_true, Bool.not_eq_true']
      constructor
      · exact hasTag_stripTags _
      · by_cases hw : (if (searchWordTag (trimChars rest)).isSome then
            wordsFold (tagTimeQ mm ss frac) (splitTagParts (trimChars rest))
          else []).isEmpty <;> simp [wordsOk, hw]
